import Mathlib

/-!
Verification of `plaidml/keras/__init__.py`: the PlaidML backend loader for
Keras.  The file models the module's data and operations — the backend
registry `_BACKENDS`, the `install_backend` entry point, and the
`_PlaidMLBackendFinder` import hook with its `find_module`, `load_module`
and `_add_imports` methods — and proves the spec's claims about them.

Python modules are modelled by their attribute dictionaries: association
lists from attribute name to value, where `setattr` binds (or re-binds) a
name.  Only the attributes the code under scrutiny assigns explicitly are
tracked; the values of outside modules (the backend implementations,
`keras.backend.common`, resolved by `importlib.import_module`) are
parameters, given as their `__dict__` in iteration order.
-/

set_option autoImplicit false

/-- A Python runtime value, as far as the loader can tell values apart:
an opaque object (identified by a tag; copying a binding shares the very
object), a string, a list of path strings (`mod.__path__`), the
`lambda: self._backend_name` accessor closure that `load_module` binds as
`mod.backend`, and the value `function_builder_wrapper(f)` would produce
(it occurs only in `_add_imports`' dead code). -/
inductive PyVal where
  | obj : Nat → PyVal
  | str : String → PyVal
  | pathList : List String → PyVal
  | backendAccessor : String → PyVal
  | wrapped : PyVal → PyVal
  deriving DecidableEq, Repr

/-- Calling a zero-argument callable.  The only zero-argument callable the
loader itself creates is `lambda: self._backend_name`, which returns the
captured backend name as a string. -/
def callNoArgs : PyVal → Option PyVal
  | .backendAccessor s => some (.str s)
  | _ => none

/-- A module's attribute dictionary, newest binding first. -/
abbrev Dict : Type := List (String × PyVal)

/-- `setattr(mod, k, v)`: bind `k` to `v`, shadowing any earlier binding. -/
def setattr (d : Dict) (k : String) (v : PyVal) : Dict := (k, v) :: d

/-- Attribute lookup: the newest binding of `k`, if any. -/
def getattr (d : Dict) (k : String) : Option PyVal :=
  (d.find? (fun kv => kv.1 == k)).map Prod.snd

/-- `_BACKENDS`: the static registry mapping each backend name to the dotted
path of its implementation module (source, module level). -/
def _BACKENDS : List (String × String) :=
  [("plaidml", ".backend"), ("theano", "keras.backend.theano_backend")]

/-- `_BACKENDS[backend_name]`, as an optional lookup (`KeyError` = `none`). -/
def backendLookup (backend_name : String) : Option String :=
  (_BACKENDS.find? (fun kv => kv.1 == backend_name)).map Prod.snd

/-- The message of the `RuntimeError` raised for an unknown backend:
`'Unknown backend \'%s\'; possible values are \'%s\'' %
 (backend_name, '\', \''.join(_BACKENDS.keys()))`. -/
def unknownBackendMessage (backend_name : String) : String :=
  "Unknown backend '" ++ backend_name ++ "'; possible values are '" ++
    String.intercalate "', '" (_BACKENDS.map Prod.fst) ++ "'"

/-- The state of `_PlaidMLBackendFinder`.  `_keras_path` is `none` until
`find_module` assigns it (reading it before then is an `AttributeError`). -/
structure Finder where
  _repname : String
  _backend_name : String
  _backend_modname : String
  _trace_file : Option String
  _keras_path : Option (List String) := none
  deriving DecidableEq, Repr

/-- `_PlaidMLBackendFinder.__init__`: looks the backend up in `_BACKENDS`;
a `KeyError` there becomes the `RuntimeError` above, raised before any
field of relevance is usable. -/
def Finder.init (repname backend_name : String) (trace_file : Option String) :
    Except String Finder :=
  match backendLookup backend_name with
  | some modname =>
      .ok { _repname := repname, _backend_name := backend_name,
            _backend_modname := modname, _trace_file := trace_file }
  | none => .error (unknownBackendMessage backend_name)

/-- `os.path.join(a, b)` for two POSIX path components. -/
def os_path_join (a b : String) : String :=
  if b.startsWith "/" then b
  else if a = "" ∨ a.endsWith "/" then a ++ b
  else a ++ "/" ++ b

/-- `fullname.rsplit('.', 1)[-1]`: the part after the last dot. -/
def rsplitTail (s : String) : String :=
  (s.splitOn ".").getLastD s

/-- The outcome of `find_module`: returned `None`, returned `self` (with
`_keras_path` freshly assigned), or raised `TypeError` (iterating over
`path` when `path` is `None`). -/
inductive FindResult where
  | notClaimed : FindResult
  | claimed : Finder → FindResult
  | typeError : FindResult
  deriving DecidableEq, Repr

/-- Whether `find_module` claimed the request (returned `self`). -/
def FindResult.isClaimed : FindResult → Bool
  | .claimed _ => true
  | _ => false

/-- Whether `find_module` raised `TypeError`. -/
def FindResult.isTypeError : FindResult → Bool
  | .typeError => true
  | _ => false

/-- `_PlaidMLBackendFinder.find_module(fullname, path)`.  Returns `None`
unless `fullname` equals `self._repname` exactly; then builds
`self._keras_path = [os.path.join(elt, tail) for elt in path]`, which
raises `TypeError` when `path` is `None` (`NoneType` is not iterable), and
returns `self`. -/
def Finder.find_module (f : Finder) (fullname : String)
    (path : Option (List String)) : FindResult :=
  if fullname ≠ f._repname then .notClaimed
  else
    match path with
    | none => .typeError
    | some p =>
        let tail := rsplitTail fullname
        .claimed { f with _keras_path := some (p.map (fun elt => os_path_join elt tail)) }

/-! ### `_add_imports`, statement by statement

`_add_imports` is modelled at the statement level because its body contains
statements after its `return`: the copy loop, `return mod`, the (dead)
local definition of `function_builder_wrapper`, and the (dead)
re-assignment `mod.function = function_builder_wrapper(mod.function)`. -/

/-- `for (k, v) in impl.__dict__.iteritems(): setattr(mod, k, v)`. -/
def injectAll (d : Dict) (src : Dict) : Dict :=
  src.foldl (fun acc kv => setattr acc kv.1 kv.2) d

/-- The statements of `_add_imports`' body, in source order. -/
inductive AddImportsStmt where
  | copyLoop : AddImportsStmt
  | returnMod : AddImportsStmt
  | defineWrapper : AddImportsStmt
  | wrapFunction : AddImportsStmt
  deriving DecidableEq, Repr

/-- The body of `_add_imports` as written: copy loop, `return mod`, then —
after the return — `def function_builder_wrapper(f)` and
`mod.function = function_builder_wrapper(mod.function)`. -/
def addImportsBody : List AddImportsStmt :=
  [.copyLoop, .returnMod, .defineWrapper, .wrapFunction]

/-- Execution of a suffix of `_add_imports`' body on the module dictionary
`d`, with `src` the resolved source module's `__dict__`.  A `return`
stops execution; `def function_builder_wrapper` binds a local name only;
the final assignment would re-bind `mod.function` to a wrapped value. -/
def runAddImports (src : Dict) : Dict → List AddImportsStmt → Dict
  | d, [] => d
  | d, .copyLoop :: rest => runAddImports src (injectAll d src) rest
  | d, .returnMod :: _ => d
  | d, .defineWrapper :: rest => runAddImports src d rest
  | d, .wrapFunction :: rest =>
      runAddImports src
        (match getattr d "function" with
         | some v => setattr d "function" (.wrapped v)
         | none => d) rest

/-- `_PlaidMLBackendFinder._add_imports(mod, import_modname)`.  `resolve`
models `importlib.import_module`: the `__dict__`, in iteration order, of
the module a dotted path names. -/
def _add_imports (resolve : String → Dict) (mod : Dict) (import_modname : String) : Dict :=
  runAddImports (resolve import_modname) mod addImportsBody

/-! ### `load_module` as a step sequence

`load_module`'s effects are modelled as a trace of primitive steps so that
their order is itself an object of study (the spec's ordering guarantee). -/

/-- One primitive effect of `load_module`. -/
inductive Step where
  | createModule : String → Step
  | setPath : List String → Step
  | register : String → Step
  | injectFrom : String → Step
  | setBackendAccessor : String → Step
  deriving DecidableEq, Repr

/-- A population step: one that copies attributes from a backend or
common-definitions module into the synthetic module, or binds the backend
accessor. -/
def Step.isPopulation : Step → Bool
  | .injectFrom _ => true
  | .setBackendAccessor _ => true
  | _ => false

/-- The state `load_module` builds: the names newly bound in `sys.modules`
to the module under construction, and that module's attribute dictionary
(`sys.modules` holds a reference, so the entry always shows the current
dictionary). -/
structure LoadState where
  registered : List String := []
  attrs : Dict := []
  deriving DecidableEq, Repr

/-- Interpreting one step.  `resolve` models `importlib.import_module`. -/
def execStep (resolve : String → Dict) (st : LoadState) : Step → LoadState
  | .createModule _ => st
  | .setPath p => { st with attrs := setattr st.attrs "__path__" (.pathList p) }
  | .register n => { st with registered := n :: st.registered }
  | .injectFrom modname => { st with attrs := _add_imports resolve st.attrs modname }
  | .setBackendAccessor name =>
      { st with attrs := setattr st.attrs "backend" (.backendAccessor name) }

/-- The steps `load_module(fullname)` performs, in source order:
`mod = types.ModuleType(self._repname)`, `mod.__path__ = self._keras_path`,
`sys.modules[fullname] = mod`, `self._add_imports(mod, self._backend_modname)`,
and — only when `self._backend_name != 'plaidml'` —
`self._add_imports(mod, 'keras.backend.common')` followed by
`mod.backend = lambda: self._backend_name`. -/
def Finder.load_module_trace (f : Finder) (fullname : String) (kpath : List String) :
    List Step :=
  [.createModule f._repname, .setPath kpath, .register fullname,
   .injectFrom f._backend_modname] ++
  (if f._backend_name ≠ "plaidml" then
    [.injectFrom "keras.backend.common", .setBackendAccessor f._backend_name]
   else [])

/-- `_PlaidMLBackendFinder.load_module(fullname)`: `none` when
`self._keras_path` was never assigned (`AttributeError`), otherwise the
interpretation of the step trace from the empty state. -/
def Finder.load_module (f : Finder) (resolve : String → Dict) (fullname : String) :
    Option LoadState :=
  f._keras_path.map fun kpath =>
    (f.load_module_trace fullname kpath).foldl (execStep resolve) {}

/-! ### `install_backend` -/

/-- The host state `install_backend` touches: `sys.meta_path` (restricted
to the finders this module appends) and `keras.utils.conv_utils.convert_kernel`. -/
structure SysState where
  meta_path : List Finder
  convert_kernel : PyVal → PyVal

/-- `install_backend(import_path, backend, trace_file)` with all arguments
explicit.  The `_PlaidMLBackendFinder(...)` constructor call is evaluated
before `sys.meta_path.append(...)` runs, so on `RuntimeError` the state is
returned untouched together with the message; on success the finder is
appended and `conv_utils.convert_kernel = lambda x: x` is assigned. -/
def install_backend (st : SysState) (import_path backend : String)
    (trace_file : Option String) : SysState × Option String :=
  match Finder.init import_path backend trace_file with
  | .error e => (st, some e)
  | .ok f =>
      ({ meta_path := st.meta_path ++ [f], convert_kernel := fun x => x }, none)

/-- The default-argument values of `install_backend`.  Python evaluates the
default expressions `os.getenv('PLAIDML_KERAS_BACKEND', 'plaidml')` and
`os.getenv('PLAIDML_TRACE_FILENAME')` once, when the `def` statement runs
(at import of `plaidml.keras`), not at each call. -/
structure InstallDefaults where
  backend : String
  trace_file : Option String

/-- The default-argument values as evaluated from the environment current
when `plaidml.keras` is imported. -/
def moduleDefaults (env : String → Option String) : InstallDefaults :=
  { backend := (env "PLAIDML_KERAS_BACKEND").getD "plaidml",
    trace_file := env "PLAIDML_TRACE_FILENAME" }

/-- A call `install_backend()` with no explicit arguments, as Python
executes it: the defaults captured at definition time are used.  `callEnv`
records the environment current at the call; the code never consults it. -/
def install_backend_noargs (d : InstallDefaults) (_callEnv : String → Option String)
    (st : SysState) : SysState × Option String :=
  install_backend st "keras.backend" d.backend d.trace_file

/-- Two consecutive no-argument `install_backend()` calls, made under
call-time environments `e1` and `e2`, after the module was imported with
defaults `d`. -/
def twoInstallCalls (d : InstallDefaults) (e1 e2 : String → Option String)
    (st : SysState) : SysState × Option String :=
  install_backend_noargs d e2 (install_backend_noargs d e1 st).1

/-! ### Dictionary lemmas -/

/-- The copy loop, denotationally: the source's bindings, newest last
binding first, in front of the target's existing bindings. -/
theorem injectAll_eq (d src : Dict) : injectAll d src = src.reverse ++ d := by
  induction src generalizing d with
  | nil => rfl
  | cons kv rest ih =>
      show injectAll (setattr d kv.1 kv.2) rest = _
      rw [ih]; simp [setattr]

/-- An attribute is present exactly when its name is bound. -/
theorem getattr_isSome_iff (d : Dict) (k : String) :
    (getattr d k).isSome = true ↔ k ∈ d.map Prod.fst := by
  induction d with
  | nil => simp [getattr]
  | cons kv rest ih =>
      unfold getattr at *
      by_cases h : kv.1 = k
      · rw [List.find?_cons_of_pos _ (by simp [h])]
        simp [h]
      · rw [List.find?_cons_of_neg _ (by simp [h])]
        simp only [List.map_cons, List.mem_cons]
        rw [← ih]
        constructor
        · exact fun hh => Or.inr hh
        · rintro (hh | hh)
          · exact absurd hh.symm h
          · exact hh

/-- Every attribute value is one of the dictionary's bindings. -/
theorem getattr_mem {d : Dict} {k : String} {v : PyVal} (h : getattr d k = some v) :
    (k, v) ∈ d := by
  unfold getattr at h
  rcases Option.map_eq_some'.mp h with ⟨kv, hfind, hsnd⟩
  have hm := List.mem_of_find?_eq_some hfind
  have hp : kv.1 = k := by simpa using List.find?_some hfind
  have : kv = (k, v) := by cases kv; simp_all
  rwa [this] at hm

/-! ### `load_module` in closed form -/

/-- The attribute dictionary `load_module` builds for the default backend:
the implementation's bindings over the `__path__` assignment. -/
def defaultAttrs (resolve : String → Dict) (f : Finder) (kpath : List String) : Dict :=
  (resolve f._backend_modname).reverse ++ [("__path__", PyVal.pathList kpath)]

/-- The attribute dictionary for a non-default backend: additionally the
common-definitions bindings and, newest, the `backend` accessor. -/
def nonDefaultAttrs (resolve : String → Dict) (f : Finder) (kpath : List String) : Dict :=
  ("backend", PyVal.backendAccessor f._backend_name) ::
    ((resolve "keras.backend.common").reverse ++ defaultAttrs resolve f kpath)

/-- `load_module`, evaluated: it registers `fullname` and builds the
closed-form dictionary of its backend case. -/
theorem load_module_eq (f : Finder) (resolve : String → Dict) (fullname : String)
    (kpath : List String) (hk : f._keras_path = some kpath) :
    f.load_module resolve fullname = some
      { registered := [fullname],
        attrs := if f._backend_name = "plaidml" then defaultAttrs resolve f kpath
                 else nonDefaultAttrs resolve f kpath } := by
  unfold Finder.load_module Finder.load_module_trace
  rw [hk]
  by_cases h : f._backend_name = "plaidml" <;>
    simp [h, execStep, _add_imports, runAddImports, addImportsBody, injectAll_eq,
      defaultAttrs, nonDefaultAttrs, setattr]

/-- Which names the synthesized module binds: `__path__`, the
implementation's names, and — for a non-default backend — the common
definitions' names and `backend`. -/
theorem load_module_attrs_keys (f : Finder) (resolve : String → Dict) (fullname : String)
    (kpath : List String) (st : LoadState) (hk : f._keras_path = some kpath)
    (hload : f.load_module resolve fullname = some st) :
    ∀ k, (getattr st.attrs k).isSome = true ↔
      (k = "__path__" ∨ k ∈ (resolve f._backend_modname).map Prod.fst ∨
       (f._backend_name ≠ "plaidml" ∧
         (k ∈ (resolve "keras.backend.common").map Prod.fst ∨ k = "backend"))) := by
  rw [load_module_eq f resolve fullname kpath hk] at hload
  have hst := (Option.some.inj hload).symm
  subst hst
  intro k
  by_cases h : f._backend_name = "plaidml" <;>
    · rw [getattr_isSome_iff]
      simp [h, defaultAttrs, nonDefaultAttrs]
      tauto

/-- Where each attribute value comes from: the very object bound in the
implementation or common-definitions module (shallow sharing), the
`__path__` list, or the `backend` accessor. -/
theorem load_module_attrs_values (f : Finder) (resolve : String → Dict) (fullname : String)
    (kpath : List String) (st : LoadState) (hk : f._keras_path = some kpath)
    (hload : f.load_module resolve fullname = some st) :
    ∀ k v, getattr st.attrs k = some v →
      (k, v) ∈ resolve f._backend_modname ∨
      (f._backend_name ≠ "plaidml" ∧ (k, v) ∈ resolve "keras.backend.common") ∨
      (k = "__path__" ∧ v = PyVal.pathList kpath) ∨
      (f._backend_name ≠ "plaidml" ∧ k = "backend" ∧
        v = PyVal.backendAccessor f._backend_name) := by
  rw [load_module_eq f resolve fullname kpath hk] at hload
  have hst := (Option.some.inj hload).symm
  subst hst
  intro k v hget
  have hm := getattr_mem hget
  by_cases h : f._backend_name = "plaidml" <;>
    · simp [h, defaultAttrs, nonDefaultAttrs] at hm
      tauto

/-! ### `sys.modules` registration bookkeeping -/

/-- No step removes a `sys.modules` binding. -/
theorem registered_mono (resolve : String → Dict) (l : List Step) (st : LoadState)
    (x : String) (hx : x ∈ st.registered) :
    x ∈ (l.foldl (execStep resolve) st).registered := by
  induction l generalizing st with
  | nil => simpa
  | cons s rest ih =>
      apply ih
      cases s <;> simp [execStep, hx]

/-- Once a register step has run, its name is in `sys.modules`. -/
theorem register_mem_registered (resolve : String → Dict) (n : String) :
    ∀ (l : List Step) (st : LoadState), Step.register n ∈ l →
      n ∈ (l.foldl (execStep resolve) st).registered := by
  intro l
  induction l with
  | nil => intro st h; cases h
  | cons s rest ih =>
      intro st h
      rcases List.mem_cons.mp h with h | h
      · subst h
        exact registered_mono resolve rest _ n (by simp [execStep])
      · exact ih _ h

/-! ### Concrete fixtures -/

/-- A concrete stand-in for `importlib.import_module`: small module
dictionaries for the implementation paths the loader can name. -/
def resolveEx : String → Dict := fun m =>
  if m = ".backend" then [("function", .obj 7), ("f", .obj 1)]
  else if m = "keras.backend.common" then [("epsilon", .obj 2)]
  else if m = "keras.backend.theano_backend" then [("function", .obj 7), ("th", .obj 4)]
  else []

/-- A finder for the default backend, after `find_module` has assigned
`_keras_path`. -/
def finderDefault : Finder :=
  { _repname := "keras.backend", _backend_name := "plaidml", _backend_modname := ".backend",
    _trace_file := none, _keras_path := some ["/sp/keras/backend"] }

/-- The same finder with a trace destination configured. -/
def finderTraced : Finder := { finderDefault with _trace_file := some "trace.out" }

/-- A finder for the non-default `theano` backend. -/
def finderTheano : Finder :=
  { _repname := "keras.backend", _backend_name := "theano",
    _backend_modname := "keras.backend.theano_backend",
    _trace_file := none, _keras_path := some ["/sp/keras/backend"] }

/-- The module synthesized for the default backend. -/
def loadedDefault : LoadState :=
  (finderDefault.load_module resolveEx "keras.backend").getD {}

/-- The module synthesized with a trace destination configured. -/
def loadedTraced : LoadState :=
  (finderTraced.load_module resolveEx "keras.backend").getD {}

/-- The module synthesized for the `theano` backend. -/
def loadedTheano : LoadState :=
  (finderTheano.load_module resolveEx "keras.backend").getD {}

/-- A host state whose `convert_kernel` is not the identity. -/
def st0 : SysState := { meta_path := [], convert_kernel := fun _ => .obj 99 }

/-- `String` append is associative (needed to split the error message). -/
theorem string_append_assoc (a b c : String) : a ++ b ++ c = a ++ (b ++ c) := by
  rcases a with ⟨da⟩; rcases b with ⟨db⟩; rcases c with ⟨dc⟩
  show String.mk (da ++ db ++ dc) = String.mk (da ++ (db ++ dc))
  rw [List.append_assoc]

/-! ### The claims -/

/-- C1 counterexample: for the default backend and an implementation module
exporting exactly `function` and `f`, the synthesized module's attribute
set is not equal to the implementation's name set — `__path__` is also
bound by `load_module` (`mod.__path__ = self._keras_path`). -/
theorem C1_attr_set_counterexample :
    ¬ (∀ k : String, (getattr loadedDefault.attrs k).isSome = true ↔
        k ∈ (resolveEx ".backend").map Prod.fst) :=
  fun h => absurd (h "__path__") (by decide)

/-- C1 amended: the synthesized module's attribute set equals the union of
the implementation's exported names, the `__path__` binding made by
`load_module` itself, and — for a non-default backend — the
common-definitions names and the `backend` accessor; and every attribute
value is a shallow re-binding: the very object bound in a source module,
the path list, or the accessor — nothing else. -/
theorem C1_attr_set_amended (f : Finder) (resolve : String → Dict) (fullname : String)
    (kpath : List String) (st : LoadState) (hk : f._keras_path = some kpath)
    (hload : f.load_module resolve fullname = some st) :
    (∀ k, (getattr st.attrs k).isSome = true ↔
      (k = "__path__" ∨ k ∈ (resolve f._backend_modname).map Prod.fst ∨
       (f._backend_name ≠ "plaidml" ∧
         (k ∈ (resolve "keras.backend.common").map Prod.fst ∨ k = "backend")))) ∧
    (∀ k v, getattr st.attrs k = some v →
      (k, v) ∈ resolve f._backend_modname ∨
      (f._backend_name ≠ "plaidml" ∧ (k, v) ∈ resolve "keras.backend.common") ∨
      (k = "__path__" ∧ v = PyVal.pathList kpath) ∨
      (f._backend_name ≠ "plaidml" ∧ k = "backend" ∧
        v = PyVal.backendAccessor f._backend_name)) :=
  ⟨load_module_attrs_keys f resolve fullname kpath st hk hload,
   load_module_attrs_values f resolve fullname kpath st hk hload⟩

/-- C1 amended, witnessed on the theano fixture: the common definition
`epsilon` is bound on the synthesized module. -/
theorem C1_attr_set_amended_wit :
    (getattr loadedTheano.attrs "epsilon").isSome = true :=
  ((C1_attr_set_amended finderTheano resolveEx "keras.backend" ["/sp/keras/backend"]
      loadedTheano rfl rfl).1 "epsilon").mpr (by decide)

/-- C2: an unknown backend name makes the finder constructor — and hence
`install_backend` — fail with the "Unknown backend" `RuntimeError` whose
message enumerates every valid backend name, and it fails before
`sys.meta_path.append` runs: the resolver chain is exactly what it was. -/
theorem C2_unknown_backend_fails_early (st : SysState) (ip b : String)
    (tf : Option String) (hb : backendLookup b = none) :
    Finder.init ip b tf = Except.error (unknownBackendMessage b) ∧
    install_backend st ip b tf = (st, some (unknownBackendMessage b)) ∧
    (install_backend st ip b tf).1.meta_path = st.meta_path ∧
    (∀ k ∈ _BACKENDS.map Prod.fst, ∃ s t, unknownBackendMessage b = s ++ k ++ t) := by
  have h1 : Finder.init ip b tf = Except.error (unknownBackendMessage b) := by
    unfold Finder.init; rw [hb]
  have h2 : install_backend st ip b tf = (st, some (unknownBackendMessage b)) := by
    unfold install_backend; rw [h1]
  refine ⟨h1, h2, by rw [h2], ?_⟩
  intro k hk
  simp only [_BACKENDS, List.map_cons, List.map_nil, List.mem_cons,
    List.not_mem_nil, or_false] at hk
  rcases hk with h | h <;> subst h
  · refine ⟨"Unknown backend '" ++ b ++ "'; possible values are '", "', 'theano'", ?_⟩
    simp only [unknownBackendMessage, string_append_assoc]
    congr 1
  · refine ⟨"Unknown backend '" ++ b ++ "'; possible values are 'plaidml', '", "'", ?_⟩
    simp only [unknownBackendMessage, string_append_assoc]
    congr 1

/-- C2 witnessed at the unknown name "tensorflow" and the fixture state. -/
theorem C2_unknown_backend_fails_early_wit :
    install_backend st0 "keras.backend" "tensorflow" none =
      (st0, some (unknownBackendMessage "tensorflow")) :=
  (C2_unknown_backend_fails_early st0 "keras.backend" "tensorflow" none rfl).2.1

/-- C3: `find_module` claims a request exactly when the requested full name
equals the configured target path, by string equality; every other
requested name is answered `None` (no wildcard or prefix matching),
whatever `path` is supplied. -/
theorem C3_find_module_exact_match (f : Finder) (fullname : String) :
    (∀ p, (f.find_module fullname (some p)).isClaimed =
      decide (fullname = f._repname)) ∧
    (∀ path, fullname ≠ f._repname → f.find_module fullname path = .notClaimed) := by
  constructor
  · intro p
    by_cases h : fullname = f._repname <;>
      simp [Finder.find_module, h, FindResult.isClaimed]
  · intro path h
    simp [Finder.find_module, h]

/-- C3 witnessed: requesting "foo.bar" when the target is "keras.backend"
is answered `None`. -/
theorem C3_find_module_exact_match_wit :
    finderDefault.find_module "foo.bar" (some ["/sp"]) = .notClaimed :=
  (C3_find_module_exact_match finderDefault "foo.bar").2 (some ["/sp"]) (by decide)

/-- C4: in `load_module`'s step trace the `sys.modules[fullname] = mod`
registration precedes every attribute-population step strictly — the steps
before it populate nothing and at least one population step follows — and
any executed prefix that contains a population step has already placed
`fullname` into the module table, so a re-entrant import during population
finds the registered (possibly partially populated) object. -/
theorem C4_register_before_population (f : Finder) (resolve : String → Dict)
    (fullname : String) (kpath : List String) :
    ∃ pre post,
      f.load_module_trace fullname kpath = pre ++ Step.register fullname :: post ∧
      pre.all (fun s => !s.isPopulation) = true ∧
      post.any (fun s => s.isPopulation) = true ∧
      ∀ n, ((f.load_module_trace fullname kpath).take n).any (fun s => s.isPopulation) = true →
        fullname ∈
          (((f.load_module_trace fullname kpath).take n).foldl (execStep resolve) {}).registered := by
  refine ⟨[.createModule f._repname, .setPath kpath],
    Step.injectFrom f._backend_modname ::
      (if f._backend_name ≠ "plaidml" then
        [.injectFrom "keras.backend.common", .setBackendAccessor f._backend_name]
       else []), ?_, ?_, ?_, ?_⟩
  · simp [Finder.load_module_trace]
  · simp [Step.isPopulation]
  · simp [Step.isPopulation]
  · intro n hn
    apply register_mem_registered
    match n with
    | 0 => simp [Finder.load_module_trace] at hn
    | 1 => simp [Finder.load_module_trace, Step.isPopulation] at hn
    | 2 => simp [Finder.load_module_trace, Step.isPopulation] at hn
    | (m + 3) => simp [Finder.load_module_trace, List.take_succ_cons]

/-- C5: for every non-default backend the synthesized module receives the
`backend` accessor — a zero-argument callable returning exactly the
configured backend's name as a string — and every common-definitions name;
for the default backend neither addition is made: the dictionary is
exactly the `__path__` binding plus the implementation's bindings. -/
theorem C5_nondefault_additions (f : Finder) (resolve : String → Dict) (fullname : String)
    (kpath : List String) (st : LoadState) (hk : f._keras_path = some kpath)
    (hload : f.load_module resolve fullname = some st) :
    (f._backend_name ≠ "plaidml" →
      getattr st.attrs "backend" = some (PyVal.backendAccessor f._backend_name) ∧
      callNoArgs (PyVal.backendAccessor f._backend_name) =
        some (PyVal.str f._backend_name) ∧
      ∀ k ∈ (resolve "keras.backend.common").map Prod.fst,
        (getattr st.attrs k).isSome = true) ∧
    (f._backend_name = "plaidml" →
      st.attrs = injectAll (setattr [] "__path__" (PyVal.pathList kpath))
        (resolve f._backend_modname)) := by
  have hkeys := load_module_attrs_keys f resolve fullname kpath st hk hload
  rw [load_module_eq f resolve fullname kpath hk] at hload
  have hst := (Option.some.inj hload).symm
  constructor
  · intro h
    refine ⟨?_, rfl, ?_⟩
    · rw [hst]
      simp [h, nonDefaultAttrs, getattr, List.find?]
    · intro k hkmem
      rw [hkeys k]
      tauto
  · intro h
    rw [hst]
    simp [h, injectAll_eq, setattr, defaultAttrs]

/-- C5 witnessed on the theano fixture: the accessor is bound and calling
it returns "theano". -/
theorem C5_nondefault_additions_wit :
    getattr loadedTheano.attrs "backend" = some (PyVal.backendAccessor "theano") :=
  ((C5_nondefault_additions finderTheano resolveEx "keras.backend" ["/sp/keras/backend"]
      loadedTheano rfl rfl).1 (by decide)).1

/-- C6: every successful `install_backend` call, whichever valid backend
was chosen, re-binds `conv_utils.convert_kernel` to `lambda x: x`:
invoking it afterwards returns its single argument unchanged. -/
theorem C6_convert_kernel_identity (st : SysState) (ip b : String) (tf : Option String)
    (h : (install_backend st ip b tf).2 = none) :
    ∀ x, (install_backend st ip b tf).1.convert_kernel x = x := by
  intro x
  cases hinit : Finder.init ip b tf <;>
    simp [install_backend, hinit] at h ⊢

/-- C6 witnessed: after installing the theano backend over a state whose
`convert_kernel` was not the identity, `convert_kernel` returns its
argument. -/
theorem C6_convert_kernel_identity_wit :
    (install_backend st0 "keras.backend" "theano" none).1.convert_kernel (PyVal.obj 5) =
      PyVal.obj 5 :=
  C6_convert_kernel_identity st0 "keras.backend" "theano" none rfl (PyVal.obj 5)

/-- The environment in force when `plaidml.keras` is imported: nothing set. -/
def envAtImport : String → Option String := fun _ => none

/-- The environment in force at a later `install_backend()` call: the
backend-selection variable now names "theano". -/
def envAtCall : String → Option String := fun k =>
  if k = "PLAIDML_KERAS_BACKEND" then some "theano" else none

/-- C7 counterexample: `plaidml.keras` is imported under an empty
environment; the environment then changes to select "theano"; a subsequent
`install_backend()` call with no explicit arguments still installs a
finder for "plaidml" — the value captured when the `def` statement
evaluated its default arguments — not the "theano" the call-time
environment holds. -/
theorem C7_env_read_at_call_counterexample :
    (install_backend_noargs (moduleDefaults envAtImport) envAtCall st0).1.meta_path.map
        Finder._backend_name = ["plaidml"] ∧
    (envAtCall "PLAIDML_KERAS_BACKEND").getD "plaidml" = "theano" ∧
    "plaidml" ≠ "theano" := by
  refine ⟨rfl, rfl, by decide⟩

/-- C7 amended: the two environment variables are read once, when
`plaidml.keras` is imported and `install_backend`'s default-argument
expressions are evaluated; no-argument calls made later reuse those
captured values, so a run is unchanged under any change of the call-time
environments, and every finder such a run appends carries the import-time
backend value. -/
theorem C7_env_read_at_def_amended (env0 e1 e2 e1' e2' : String → Option String)
    (st : SysState) :
    twoInstallCalls (moduleDefaults env0) e1 e2 st =
      twoInstallCalls (moduleDefaults env0) e1' e2' st ∧
    ∀ f ∈ (twoInstallCalls (moduleDefaults env0) e1 e2 st).1.meta_path.drop
        st.meta_path.length,
      f._backend_name = (env0 "PLAIDML_KERAS_BACKEND").getD "plaidml" := by
  refine ⟨rfl, ?_⟩
  intro f hf
  unfold twoInstallCalls install_backend_noargs install_backend at hf
  cases hinit : Finder.init "keras.backend" (moduleDefaults env0).backend
      (moduleDefaults env0).trace_file with
  | error e =>
      rw [hinit] at hf
      simp at hf
  | ok fnew =>
      have hname : fnew._backend_name = (moduleDefaults env0).backend := by
        unfold Finder.init at hinit
        cases hbl : backendLookup (moduleDefaults env0).backend with
        | none => rw [hbl] at hinit; cases hinit
        | some m => rw [hbl] at hinit; cases hinit; rfl
      rw [hinit] at hf
      simp only [List.append_assoc, List.drop_left] at hf
      rcases List.mem_cons.mp hf with h | h
      · rw [h, hname]; rfl
      · rcases List.mem_cons.mp h with h' | h'
        · rw [h', hname]; rfl
        · cases h'

/-- C8 counterexample: with a trace destination configured
(`_trace_file = some "trace.out"`), the synthesized module's `function`
attribute is still the implementation module's own object; no wrapped
callable is ever installed on the function factory. -/
theorem C8_trace_wrapper_counterexample :
    getattr loadedTraced.attrs "function" = some (PyVal.obj 7) ∧
    ¬ ∃ v, getattr loadedTraced.attrs "function" = some (PyVal.wrapped v) := by
  refine ⟨by decide, ?_⟩
  rintro ⟨v, hv⟩
  rw [show getattr loadedTraced.attrs "function" = some (PyVal.obj 7) by decide] at hv
  simp at hv

/-- C8 amended: the tracing feature is disabled in the shipped code — the
interception installer is commented out and the wrapper statements sit
after `_add_imports`' `return` — so the synthesized module does not depend
on the trace destination at all, no event is ever recorded, and no wrapped
callable is ever bound unless a source module itself exported one. -/
theorem C8_trace_wrapper_amended (f : Finder) (resolve : String → Dict)
    (fullname : String) (tf : Option String) :
    Finder.load_module { f with _trace_file := tf } resolve fullname =
      f.load_module resolve fullname ∧
    ∀ st k v, f.load_module resolve fullname = some st →
      getattr st.attrs k = some (PyVal.wrapped v) →
      ((k, PyVal.wrapped v) ∈ resolve f._backend_modname ∨
       (k, PyVal.wrapped v) ∈ resolve "keras.backend.common") := by
  refine ⟨rfl, ?_⟩
  intro st k v hload hget
  cases hp : f._keras_path with
  | none =>
      unfold Finder.load_module at hload
      rw [hp] at hload
      cases hload
  | some kpath =>
      rcases load_module_attrs_values f resolve fullname kpath st hp hload k _ hget with
        h | h | h | h
      · exact Or.inl h
      · exact Or.inr h.2
      · exact absurd h.2 (by simp)
      · exact absurd h.2.2 (by simp)

/-- C9: everything after `return mod` in `_add_imports` is dead code: the
method equals the copy-and-return prefix of its own body, which is the
plain copy loop; `load_module`'s result never depends on `_trace_file`;
and the synthesized module's `function` attribute is always an object the
implementation (or common-definitions) module itself bound — never a
wrapper built around it. -/
theorem C9_add_imports_dead_code (resolve : String → Dict) (mod : Dict) (m : String)
    (f : Finder) (fullname : String) (tf tf' : Option String) :
    _add_imports resolve mod m =
      runAddImports (resolve m) mod [AddImportsStmt.copyLoop, AddImportsStmt.returnMod] ∧
    _add_imports resolve mod m = injectAll mod (resolve m) ∧
    Finder.load_module { f with _trace_file := tf } resolve fullname =
      Finder.load_module { f with _trace_file := tf' } resolve fullname ∧
    ∀ st v, f.load_module resolve fullname = some st →
      getattr st.attrs "function" = some v →
      (("function", v) ∈ resolve f._backend_modname ∨
       ("function", v) ∈ resolve "keras.backend.common") := by
  refine ⟨rfl, rfl, rfl, ?_⟩
  intro st v hload hget
  cases hp : f._keras_path with
  | none =>
      unfold Finder.load_module at hload
      rw [hp] at hload
      cases hload
  | some kpath =>
      rcases load_module_attrs_values f resolve fullname kpath st hp hload _ _ hget with
        h | h | h | h
      · exact Or.inl h
      · exact Or.inr h.2
      · exact absurd h.1 (by decide)
      · exact absurd h.2.1 (by decide)

/-- C10: `find_module` invoked with the configured target name but with
`path = None` raises `TypeError` (iterating `None` in the list
comprehension) instead of returning the finder or `None`; when the host
supplies a parent search-path list, no `TypeError` is possible. -/
theorem C10_find_module_path_none_raises (f : Finder) :
    f.find_module f._repname none = FindResult.typeError ∧
    ∀ fullname p, (f.find_module fullname (some p)).isTypeError = false := by
  constructor
  · simp [Finder.find_module]
  · intro fullname p
    by_cases h : fullname = f._repname <;>
      simp [Finder.find_module, h, FindResult.isTypeError]
